import Mathlib

/-!
Verification development for the Arduino HID-bridge firmware
(`src/ino_/ardunio_code/ardunio_code.ino`, the queue-mode variant in the
first part of that file, which is the variant the specification mandates).

The embedding models the firmware's command pipeline as pure functions over
an explicit state record.  Machine integers (`uint8_t`, `uint16_t`,
`uint32_t`) become `Nat` with `% 256` applied where the source truncates a
byte; `int8_t` casts become `toInt8`.  Side effects on the two serial
channels and on the USB HID device become an event trace: an `Event.ack`
records a `Serial.write` of an ACK byte on the primary channel, an
`Event.hid` records a call into the Mouse/Keyboard HID driver, and an
`Event.log` records an invocation of a `Logger` method (the `Logger`'s
internal `g_log_enabled` gating only suppresses `Serial1` text, which is
below this abstraction; the spec treats the log channel as carrying no
semantic value).

The hardware-button ISR is an asynchronous producer of the single flag
`g_interrupt_flag`.  It is modelled at two granularities: an interrupt
arriving between main-loop iterations sets the flag at the top of an
iteration (`LoopInput.interrupt`), and the volatile re-reads of the flag
performed inside the `KB_PRINT` byte loop are modelled by the oracle
`isr : Nat → Bool` giving the value observed before writing byte `i`
(every other opcode reads the flag only once, at the top of
`executeCommand`, which uses the state field).
-/

-- ========== Protocol constants (from the `#define` block) ==========

def SYNC_BYTE : Nat := 0xAA
def MAX_PACKET_SIZE : Nat := 32

def ACK_SUCCESS : Nat := 0xF0
def ACK_CRC_ERROR : Nat := 0xF1
def ACK_INVALID_CMD : Nat := 0xF2
def ACK_PARAM_ERROR : Nat := 0xF3
def ACK_INTERRUPTED : Nat := 0xF4

def CMD_MOUSE_MOVE : Nat := 0x01
def CMD_MOUSE_PRESS : Nat := 0x02
def CMD_MOUSE_RELEASE : Nat := 0x03
def CMD_MOUSE_CLICK : Nat := 0x04
def CMD_MOUSE_PRESS_TIMED : Nat := 0x05
def CMD_KB_PRESS : Nat := 0x10
def CMD_KB_RELEASE : Nat := 0x11
def CMD_KB_WRITE : Nat := 0x12
def CMD_KB_RELEASE_ALL : Nat := 0x13
def CMD_KB_PRINT : Nat := 0x14
def CMD_KB_PRESS_TIMED : Nat := 0x15
def CMD_PAUSE_LOG : Nat := 0x20
def CMD_RESUME_LOG : Nat := 0x21
def CMD_CLEAR_QUEUE : Nat := 0x22

def QUEUE_SIZE : Nat := 16

/-- Reinterpret a byte as the firmware's `(int8_t)` cast. -/
def toInt8 (b : Nat) : Int :=
  if b % 256 < 128 then (b % 256 : Int) else (b % 256 : Int) - 256

-- ========== CRC-8 unit (table and `crc8`, verbatim from the source) ==========

def CRC8_TABLE : List Nat := [
  0x00, 0x5E, 0xBC, 0xE2, 0x61, 0x3F, 0xDD, 0x83,
  0xC2, 0x9C, 0x7E, 0x20, 0xA3, 0xFD, 0x1F, 0x41,
  0x9D, 0xC3, 0x21, 0x7F, 0xFC, 0xA2, 0x40, 0x1E,
  0x5F, 0x01, 0xE3, 0xBD, 0x3E, 0x60, 0x82, 0xDC,
  0x23, 0x7D, 0x9F, 0xC1, 0x42, 0x1C, 0xFE, 0xA0,
  0xE1, 0xBF, 0x5D, 0x03, 0x80, 0xDE, 0x3C, 0x62,
  0xBE, 0xE0, 0x02, 0x5C, 0xDF, 0x81, 0x63, 0x3D,
  0x7C, 0x22, 0xC0, 0x9E, 0x1D, 0x43, 0xA1, 0xFF,
  0x46, 0x18, 0xFA, 0xA4, 0x27, 0x79, 0x9B, 0xC5,
  0x84, 0xDA, 0x38, 0x66, 0xE5, 0xBB, 0x59, 0x07,
  0xDB, 0x85, 0x67, 0x39, 0xBA, 0xE4, 0x06, 0x58,
  0x19, 0x47, 0xA5, 0xFB, 0x78, 0x26, 0xC4, 0x9A,
  0x65, 0x3B, 0xD9, 0x87, 0x04, 0x5A, 0xB8, 0xE6,
  0xA7, 0xF9, 0x1B, 0x45, 0xC6, 0x98, 0x7A, 0x24,
  0xF8, 0xA6, 0x44, 0x1A, 0x99, 0xC7, 0x25, 0x7B,
  0x3A, 0x64, 0x86, 0xD8, 0x5B, 0x05, 0xE7, 0xB9,
  0x8C, 0xD2, 0x30, 0x6E, 0xED, 0xB3, 0x51, 0x0F,
  0x4E, 0x10, 0xF2, 0xAC, 0x2F, 0x71, 0x93, 0xCD,
  0x11, 0x4F, 0xAD, 0xF3, 0x70, 0x2E, 0xCC, 0x92,
  0xD3, 0x8D, 0x6F, 0x31, 0xB2, 0xEC, 0x0E, 0x50,
  0xAF, 0xF1, 0x13, 0x4D, 0xCE, 0x90, 0x72, 0x2C,
  0x6D, 0x33, 0xD1, 0x8F, 0x0C, 0x52, 0xB0, 0xEE,
  0x32, 0x6C, 0x8E, 0xD0, 0x53, 0x0D, 0xEF, 0xB1,
  0xF0, 0xAE, 0x4C, 0x12, 0x91, 0xCF, 0x2D, 0x73,
  0xCA, 0x94, 0x76, 0x28, 0xAB, 0xF5, 0x17, 0x49,
  0x08, 0x56, 0xB4, 0xEA, 0x69, 0x37, 0xD5, 0x8B,
  0x57, 0x09, 0xEB, 0xB5, 0x36, 0x68, 0x8A, 0xD4,
  0x95, 0xCB, 0x29, 0x77, 0xF4, 0xAA, 0x48, 0x16,
  0xE9, 0xB7, 0x55, 0x0B, 0x88, 0xD6, 0x34, 0x6A,
  0x2B, 0x75, 0x97, 0xC9, 0x4A, 0x14, 0xF6, 0xA8,
  0x74, 0x2A, 0xC8, 0x96, 0x15, 0x4B, 0xA9, 0xF7,
  0xB6, 0xE8, 0x0A, 0x54, 0xD7, 0x89, 0x6B, 0x35]

/-- `crc8(data, len)`: table lookup with init `0x00`; the caller passes the
exact byte sequence (`len` is the list length). -/
def crc8 (data : List Nat) : Nat :=
  data.foldl (fun crc b => CRC8_TABLE.getD ((crc ^^^ b) % 256) 0) 0x00

-- ========== Command packets and the bounded queue ==========

/-- `struct CommandPacket`.  The fixed `params[MAX_PACKET_SIZE]` array plus
`param_len` is modelled as the list of the `param_len` meaningful bytes. -/
structure CommandPacket where
  cmd : Nat
  params : List Nat
  timestamp : Nat
deriving DecidableEq, Repr

def defaultPacket : CommandPacket := { cmd := 0, params := [], timestamp := 0 }

/-- `class CommandQueue`: a 16-slot ring buffer with `head`, `tail`, `count`. -/
structure CommandQueue where
  slots : List CommandPacket
  head : Nat
  tail : Nat
  count : Nat
deriving DecidableEq, Repr

/-- `CommandQueue::push`: `none` when full, otherwise write at `tail` and
advance it modulo the capacity. -/
def CommandQueue.push (q : CommandQueue) (p : CommandPacket) : Option CommandQueue :=
  if q.count ≥ QUEUE_SIZE then none
  else some { slots := q.slots.set q.tail p, head := q.head,
              tail := (q.tail + 1) % QUEUE_SIZE, count := q.count + 1 }

/-- `CommandQueue::pop`: `none` when empty, otherwise read at `head` and
advance it modulo the capacity. -/
def CommandQueue.pop (q : CommandQueue) : Option (CommandQueue × CommandPacket) :=
  if q.count = 0 then none
  else some ({ slots := q.slots, head := (q.head + 1) % QUEUE_SIZE,
               tail := q.tail, count := q.count - 1 },
             q.slots.getD q.head defaultPacket)

/-- `CommandQueue::clear`: `head = tail = count = 0`; the slot array is left
as it is. -/
def CommandQueue.clear (q : CommandQueue) : CommandQueue :=
  { slots := q.slots, head := 0, tail := 0, count := 0 }

def CommandQueue.isEmpty (q : CommandQueue) : Bool := q.count == 0

def CommandQueue.isFull (q : CommandQueue) : Bool := q.count ≥ QUEUE_SIZE

/-- The FIFO content of the ring buffer, oldest first. -/
def CommandQueue.toList (q : CommandQueue) : List CommandPacket :=
  (List.range q.count).map fun i => q.slots.getD ((q.head + i) % QUEUE_SIZE) defaultPacket

/-- Representation invariant of the ring buffer (established by the
zero-initialised constructor and preserved by push/pop/clear). -/
def CommandQueue.WF (q : CommandQueue) : Prop :=
  q.slots.length = QUEUE_SIZE ∧ q.head < QUEUE_SIZE ∧ q.count ≤ QUEUE_SIZE ∧
    q.tail = (q.head + q.count) % QUEUE_SIZE

instance (q : CommandQueue) : Decidable q.WF := by
  unfold CommandQueue.WF; infer_instance

-- ========== Effect traces ==========

/-- A call into the external HID driver (Mouse/Keyboard libraries). -/
inductive HidCall where
  | mouseMove (x y wheel : Int)
  | mousePress (button : Nat)
  | mouseRelease (button : Nat)
  | mouseClick (button : Nat)
  | kbPress (key : Nat)
  | kbRelease (key : Nat)
  | kbWrite (key : Nat)
  | kbReleaseAll
deriving DecidableEq, Repr

/-- An invocation of a `Logger` method (formatted free-text details are
abstracted away; the discriminating payloads are kept). -/
inductive LogEvent where
  | interrupt
  | logStateChange (enabled : Bool)
  | error (kind : String)
  | crcError (expected received : Nat)
  | invalidCommand (cmd : Nat)
  | paramError (cmd expected got : Nat)
  | ackLog (code : Nat)
  | command (name : String)
  | packetReceived (len : Nat)
  | packetData
  | queueStatus
  | keyboardPrint
  | mouseMove (x y wheel : Int)
  | mouseButton (action : String) (button : Nat)
  | keyboard (action : String) (key : Nat)
  | stats
deriving DecidableEq, Repr

/-- One externally visible action of the firmware. -/
inductive Event where
  | ack (code : Nat)
  | hid (c : HidCall)
  | log (l : LogEvent)
deriving DecidableEq, Repr

def acksOf (evs : List Event) : List Nat :=
  evs.filterMap fun e => match e with | .ack c => some c | _ => none

def hidOf (evs : List Event) : List HidCall :=
  evs.filterMap fun e => match e with | .hid c => some c | _ => none

def logsOf (evs : List Event) : List LogEvent :=
  evs.filterMap fun e => match e with | .log l => some l | _ => none

-- ========== Observer model of the external HID device ==========

/-- Which buttons/keys the firmware currently holds on the USB target, as
maintained by the external HID driver (spec section 3: the TimedAction
invariant speaks about firmware-held keys).  The mouse report has three
buttons, mask bits `0x01 | 0x02 | 0x04`. -/
structure HidState where
  heldKeys : List Nat
  heldButtons : Nat
deriving DecidableEq, Repr

def applyHid (h : HidState) : HidCall → HidState
  | .mouseMove _ _ _ => h
  | .mousePress b => { h with heldButtons := h.heldButtons ||| (b &&& 7) }
  | .mouseRelease b => { h with heldButtons := h.heldButtons &&& (7 ^^^ (b &&& 7)) }
  | .mouseClick b => { h with heldButtons := h.heldButtons &&& (7 ^^^ (b &&& 7)) }
  | .kbPress k => { h with heldKeys := if k ∈ h.heldKeys then h.heldKeys else h.heldKeys ++ [k] }
  | .kbRelease k => { h with heldKeys := h.heldKeys.filter (· ≠ k) }
  | .kbWrite k => { h with heldKeys := h.heldKeys.filter (· ≠ k) }
  | .kbReleaseAll => { h with heldKeys := [] }

def applyHids (h : HidState) (cs : List HidCall) : HidState := cs.foldl applyHid h

-- ========== Global firmware state ==========

/-- `struct TimedAction` (`action_type`: 0 = mouse, 1 = keyboard). -/
structure TimedAction where
  active : Bool
  action_type : Nat
  button_or_key : Nat
  start_time : Nat
  duration_ms : Nat
deriving DecidableEq, Repr

/-- The firmware's global mutable state: the two flags, the queue, the
TimedAction slot, the parser registers and buffer, and the stats timer. -/
structure FwState where
  g_interrupt_flag : Bool
  g_log_enabled : Bool
  cmdQueue : CommandQueue
  timedAction : TimedAction
  rx_state : Nat
  rx_len : Nat
  rx_idx : Nat
  rx_buffer : List Nat
  last_stats_time : Nat
deriving DecidableEq, Repr

def initState : FwState :=
  { g_interrupt_flag := false
    g_log_enabled := true
    cmdQueue := { slots := List.replicate QUEUE_SIZE defaultPacket, head := 0, tail := 0, count := 0 }
    timedAction := { active := false, action_type := 0, button_or_key := 0, start_time := 0, duration_ms := 0 }
    rx_state := 0
    rx_len := 0
    rx_idx := 0
    rx_buffer := List.replicate MAX_PACKET_SIZE 0
    last_stats_time := 0 }

/-- `sendAck`: write the ACK byte on the primary channel and invoke
`logger.logACK`. -/
def sendAck (code : Nat) : List Event :=
  [Event.ack code, Event.log (LogEvent.ackLog code)]

/-- The `KB_PRINT` byte loop: before writing byte `i` the loop re-reads the
volatile `g_interrupt_flag` (modelled by `isr i`); once it reads true the
loop breaks and no further byte is written. -/
def kbPrintWritesFrom (isr : Nat → Bool) (i : Nat) : List Nat → List Nat
  | [] => []
  | b :: rest => if isr i then [] else b :: kbPrintWritesFrom isr (i + 1) rest

def kbPrintWrites (isr : Nat → Bool) (params : List Nat) : List Nat :=
  kbPrintWritesFrom isr 0 params

-- ========== Executor (`executeCommand`) ==========

/-- `executeCommand`: dispatch one decoded command.  `isr` models the
volatile flag reads inside the `KB_PRINT` loop; all other reads of
`g_interrupt_flag` in this function use the state field (the single read at
the top). -/
def executeCommand (isr : Nat → Bool) (st : FwState) (packet : CommandPacket) (now : Nat) :
    FwState × List Event :=
  let cmd := packet.cmd
  let params := packet.params
  let param_len := params.length
  if st.g_interrupt_flag then
    (st, [Event.log (LogEvent.command "CMD_SKIPPED")])
  else if cmd = CMD_MOUSE_MOVE then
    if param_len ≠ 3 then
      (st, [Event.log (LogEvent.paramError cmd 3 param_len)])
    else
      (st, [Event.log (LogEvent.mouseMove (toInt8 (params.getD 0 0)) (toInt8 (params.getD 1 0)) (toInt8 (params.getD 2 0))),
            Event.hid (HidCall.mouseMove (toInt8 (params.getD 0 0)) (toInt8 (params.getD 1 0)) (toInt8 (params.getD 2 0)))])
  else if cmd = CMD_MOUSE_PRESS then
    if param_len ≠ 1 then (st, [])
    else (st, [Event.log (LogEvent.mouseButton "Press" (params.getD 0 0)),
               Event.hid (HidCall.mousePress (params.getD 0 0))])
  else if cmd = CMD_MOUSE_RELEASE then
    if param_len ≠ 1 then (st, [])
    else (st, [Event.log (LogEvent.mouseButton "Release" (params.getD 0 0)),
               Event.hid (HidCall.mouseRelease (params.getD 0 0))])
  else if cmd = CMD_MOUSE_CLICK then
    if param_len ≠ 1 then (st, [])
    else (st, [Event.log (LogEvent.mouseButton "Click" (params.getD 0 0)),
               Event.hid (HidCall.mouseClick (params.getD 0 0))])
  else if cmd = CMD_MOUSE_PRESS_TIMED then
    if param_len ≠ 3 then (st, [])
    else
      ({ st with timedAction := { active := true, action_type := 0,
                                  button_or_key := params.getD 0 0, start_time := now,
                                  duration_ms := ((params.getD 1 0) <<< 8) ||| (params.getD 2 0) } },
       [Event.hid (HidCall.mousePress (params.getD 0 0)),
        Event.log (LogEvent.command "MOUSE_TIMED_START")])
  else if cmd = CMD_KB_PRESS then
    if param_len ≠ 1 then (st, [])
    else (st, [Event.log (LogEvent.keyboard "Press" (params.getD 0 0)),
               Event.hid (HidCall.kbPress (params.getD 0 0))])
  else if cmd = CMD_KB_RELEASE then
    if param_len ≠ 1 then (st, [])
    else (st, [Event.log (LogEvent.keyboard "Release" (params.getD 0 0)),
               Event.hid (HidCall.kbRelease (params.getD 0 0))])
  else if cmd = CMD_KB_WRITE then
    if param_len ≠ 1 then (st, [])
    else (st, [Event.log (LogEvent.keyboard "Write" (params.getD 0 0)),
               Event.hid (HidCall.kbWrite (params.getD 0 0))])
  else if cmd = CMD_KB_RELEASE_ALL then
    (st, [Event.log (LogEvent.command "KB_RELEASE_ALL"), Event.hid HidCall.kbReleaseAll])
  else if cmd = CMD_KB_PRINT then
    (st, [Event.log (LogEvent.command "KB_PRINT"), Event.log LogEvent.keyboardPrint] ++
         (kbPrintWrites isr params).map fun b => Event.hid (HidCall.kbWrite b))
  else if cmd = CMD_KB_PRESS_TIMED then
    if param_len ≠ 3 then (st, [])
    else
      ({ st with timedAction := { active := true, action_type := 1,
                                  button_or_key := params.getD 0 0, start_time := now,
                                  duration_ms := ((params.getD 1 0) <<< 8) ||| (params.getD 2 0) } },
       [Event.hid (HidCall.kbPress (params.getD 0 0)),
        Event.log (LogEvent.command "KB_TIMED_START")])
  else if cmd = CMD_PAUSE_LOG then
    ({ st with g_log_enabled := false }, [Event.log (LogEvent.logStateChange false)])
  else if cmd = CMD_RESUME_LOG then
    ({ st with g_log_enabled := true }, [Event.log (LogEvent.logStateChange true)])
  else if cmd = CMD_CLEAR_QUEUE then
    ({ st with cmdQueue := st.cmdQueue.clear }, [Event.log (LogEvent.command "QUEUE_CLEARED")])
  else
    (st, [Event.log (LogEvent.invalidCommand cmd)])

-- ========== Dispatcher (`processPacket`) ==========

/-- `processPacket(data, len)`: reject an empty payload, build a
`CommandPacket` stamped with `millis()`, execute control-plane opcodes
synchronously (always ACKing success), and admit everything else to the
queue (success ACK on push, `QUEUE_FULL` + param-error ACK when full). -/
def processPacket (isr : Nat → Bool) (st : FwState) (data : List Nat) (len : Nat) (now : Nat) :
    FwState × List Event :=
  if len < 1 then
    (st, [Event.log (LogEvent.error "EMPTY_PACKET")] ++ sendAck ACK_PARAM_ERROR)
  else
    let packet : CommandPacket :=
      { cmd := data.getD 0 0, params := (data.drop 1).take (len - 1), timestamp := now }
    if packet.cmd = CMD_PAUSE_LOG ∨ packet.cmd = CMD_RESUME_LOG ∨ packet.cmd = CMD_CLEAR_QUEUE then
      let r := executeCommand isr st packet now
      (r.1, [Event.log LogEvent.packetData] ++ r.2 ++ sendAck ACK_SUCCESS)
    else
      match st.cmdQueue.push packet with
      | some q2 =>
          ({ st with cmdQueue := q2 },
           [Event.log LogEvent.packetData, Event.log LogEvent.queueStatus] ++ sendAck ACK_SUCCESS)
      | none =>
          (st, [Event.log LogEvent.packetData, Event.log (LogEvent.error "QUEUE_FULL")] ++
               sendAck ACK_PARAM_ERROR)

-- ========== Frame parser (loop section 3, one byte) ==========

/-- One step of the three-state frame parser for one incoming byte.
`rx_state` 0 = S_SYNC, 1 = S_LEN, 2 = S_PAYLOAD. -/
def stepByte (isr : Nat → Bool) (st : FwState) (b : Nat) (now : Nat) : FwState × List Event :=
  let byte_in := b % 256
  if st.rx_state = 0 then
    if byte_in = SYNC_BYTE then ({ st with rx_state := 1, rx_idx := 0 }, []) else (st, [])
  else if st.rx_state = 1 then
    if byte_in = 0 ∨ byte_in > MAX_PACKET_SIZE - 1 then
      ({ st with rx_len := byte_in, rx_state := 0 },
       [Event.log (LogEvent.error "INVALID_LENGTH")] ++ sendAck ACK_PARAM_ERROR)
    else
      ({ st with rx_len := byte_in, rx_state := 2, rx_idx := 0 },
       [Event.log (LogEvent.packetReceived byte_in)])
  else if st.rx_state = 2 then
    let buf := st.rx_buffer.set st.rx_idx byte_in
    let st1 := { st with rx_buffer := buf, rx_idx := st.rx_idx + 1 }
    if st.rx_idx + 1 = st.rx_len + 1 then
      let received_crc := buf.getD st.rx_len 0
      let calculated_crc := crc8 (buf.take st.rx_len)
      let r :=
        if received_crc = calculated_crc then processPacket isr st1 buf st.rx_len now
        else (st1, [Event.log (LogEvent.crcError calculated_crc received_crc)] ++ sendAck ACK_CRC_ERROR)
      ({ r.1 with rx_state := 0, rx_idx := 0 }, r.2)
    else (st1, [])
  else (st, [])

/-- Drain the serial input: run `stepByte` over all bytes available in this
iteration (`while Serial.available()`), accumulating events in order. -/
def parseBytes (isr : Nat → Bool) (st : FwState) (bytes : List Nat) (now : Nat) :
    FwState × List Event :=
  match bytes with
  | [] => (st, [])
  | b :: rest =>
      let r := stepByte isr st b now
      let r2 := parseBytes isr r.1 rest now
      (r2.1, r.2 ++ r2.2)

-- ========== Main-loop sections ==========

/-- Loop section 1: service a pending hardware interrupt.  In order: emit
the interrupt log, clear the queue, `Keyboard.releaseAll()`, release all
three mouse buttons (mask `0x01|0x02|0x04 = 7`), release and deactivate the
TimedAction slot if active, send `ACK_INTERRUPTED`, clear the flag. -/
def serviceInterrupt (st : FwState) : FwState × List Event :=
  if st.g_interrupt_flag then
    let st1 := { st with cmdQueue := st.cmdQueue.clear }
    let r2 :=
      if st1.timedAction.active then
        ({ st1 with timedAction := { st1.timedAction with active := false } },
         [Event.hid (if st1.timedAction.action_type = 0 then
                       HidCall.mouseRelease st1.timedAction.button_or_key
                     else HidCall.kbRelease st1.timedAction.button_or_key)])
      else (st1, [])
    ({ r2.1 with g_interrupt_flag := false },
     [Event.log LogEvent.interrupt, Event.hid HidCall.kbReleaseAll,
      Event.hid (HidCall.mouseRelease 7)] ++ r2.2 ++ sendAck ACK_INTERRUPTED)
  else (st, [])

/-- Loop section 2: poll the non-blocking TimedAction slot and release its
target once the deadline has passed. -/
def pollTimedAction (st : FwState) (now : Nat) : FwState × List Event :=
  if st.timedAction.active then
    if now - st.timedAction.start_time ≥ st.timedAction.duration_ms then
      ({ st with timedAction := { st.timedAction with active := false } },
       if st.timedAction.action_type = 0 then
         [Event.hid (HidCall.mouseRelease st.timedAction.button_or_key),
          Event.log (LogEvent.command "MOUSE_TIMED_END")]
       else
         [Event.hid (HidCall.kbRelease st.timedAction.button_or_key),
          Event.log (LogEvent.command "KB_TIMED_END")])
    else (st, [])
  else (st, [])

/-- Loop section 4: run one queued command when no TimedAction is active and
the queue is non-empty. -/
def executorStep (isr : Nat → Bool) (st : FwState) (now : Nat) : FwState × List Event :=
  if st.timedAction.active = false ∧ st.cmdQueue.isEmpty = false then
    match st.cmdQueue.pop with
    | some (q2, packet) => executeCommand isr { st with cmdQueue := q2 } packet now
    | none => (st, [])
  else (st, [])

/-- Loop section 5: the 30 s stats reporter (log-channel only). -/
def statsStep (st : FwState) (now : Nat) : FwState × List Event :=
  if now - st.last_stats_time > 30000 then
    ({ st with last_stats_time := now }, [Event.log LogEvent.stats])
  else (st, [])

/-- The external stimuli of one main-loop iteration: whether the ISR fired
since the previous iteration (setting `g_interrupt_flag` before the
iteration runs), the bytes available on the primary serial channel, the
millisecond clock, and the oracle for volatile flag reads inside
`KB_PRINT`. -/
structure LoopInput where
  interrupt : Bool
  bytes : List Nat
  now : Nat
  intrDuring : Nat → Bool

/-- Loop sections 1-3 (interrupt service, TimedAction poll, frame parsing),
split out so the state seen by the executor can be named. -/
def sections123 (st : FwState) (inp : LoopInput) : FwState × List Event :=
  let st0 := if inp.interrupt then { st with g_interrupt_flag := true } else st
  let r1 := serviceInterrupt st0
  let r2 := pollTimedAction r1.1 inp.now
  let r3 := parseBytes inp.intrDuring r2.1 inp.bytes inp.now
  (r3.1, r1.2 ++ r2.2 ++ r3.2)

/-- One full iteration of `loop()`. -/
def loopIteration (st : FwState) (inp : LoopInput) : FwState × List Event :=
  let r3 := sections123 st inp
  let r4 := executorStep inp.intrDuring r3.1 inp.now
  let r5 := statsStep r4.1 inp.now
  (r5.1, r3.2 ++ r4.2 ++ r5.2)

/-- A whole run of the firmware: iterate `loop()` over a list of inputs,
accumulating the event trace in order. -/
def run (st : FwState) (inputs : List LoopInput) : FwState × List Event :=
  match inputs with
  | [] => (st, [])
  | inp :: rest =>
      let r := loopIteration st inp
      let r2 := run r.1 rest
      (r2.1, r.2 ++ r2.2)

/-- Arity mismatch for the fixed-arity data-plane opcodes:
`MOUSE_MOVE` and the two `*_PRESS_TIMED` opcodes take 3 parameter bytes,
the single-key/button opcodes take 1. -/
def arityMismatch (p : CommandPacket) : Prop :=
  ((p.cmd = CMD_MOUSE_MOVE ∨ p.cmd = CMD_MOUSE_PRESS_TIMED ∨ p.cmd = CMD_KB_PRESS_TIMED) ∧
    p.params.length ≠ 3) ∨
  ((p.cmd = CMD_MOUSE_PRESS ∨ p.cmd = CMD_MOUSE_RELEASE ∨ p.cmd = CMD_MOUSE_CLICK ∨
    p.cmd = CMD_KB_PRESS ∨ p.cmd = CMD_KB_RELEASE ∨ p.cmd = CMD_KB_WRITE) ∧
    p.params.length ≠ 1)

instance (p : CommandPacket) : Decidable (arityMismatch p) := by
  unfold arityMismatch; infer_instance

/-- The parser invariant behind claim C10: in S_PAYLOAD the recorded length
is within `1..=31` and the write index never runs past it, so payload plus
CRC stay inside the 32-byte `rx_buffer`. -/
def ParserInv (s : FwState) : Prop :=
  s.rx_buffer.length = MAX_PACKET_SIZE ∧
    (s.rx_state = 2 → 1 ≤ s.rx_len ∧ s.rx_len ≤ MAX_PACKET_SIZE - 1 ∧ s.rx_idx ≤ s.rx_len)

instance (s : FwState) : Decidable (ParserInv s) := by
  unfold ParserInv; infer_instance

/-- Equality of all firmware state fields except `g_log_enabled` (the
relation underlying the log-noninterference claim C9). -/
@[reducible] def sameExceptLog (s1 s2 : FwState) : Prop :=
  s1.g_interrupt_flag = s2.g_interrupt_flag ∧ s1.cmdQueue = s2.cmdQueue ∧
  s1.timedAction = s2.timedAction ∧ s1.rx_state = s2.rx_state ∧
  s1.rx_len = s2.rx_len ∧ s1.rx_idx = s2.rx_idx ∧ s1.rx_buffer = s2.rx_buffer ∧
  s1.last_stats_time = s2.last_stats_time

-- ========== Concrete states used to instantiate the theorems ==========

/-- A sample HID device holding two keys and two mouse buttons. -/
def hid0 : HidState := { heldKeys := [4, 5], heldButtons := 3 }

/-- A state with a pending interrupt and an active keyboard TimedAction. -/
def stIntr : FwState :=
  { initState with
      g_interrupt_flag := true
      timedAction := { active := true, action_type := 1, button_or_key := 0x41,
                       start_time := 0, duration_ms := 5000 } }

/-- A state whose parser sits in S_LEN. -/
def stSLen : FwState := { initState with rx_state := 1 }

/-- A state whose parser sits in S_PAYLOAD having read length 1 and the
one-byte payload `[0x13]` (KB_RELEASE_ALL), waiting for the CRC byte. -/
def stSPay : FwState :=
  { initState with
      rx_state := 2, rx_len := 1, rx_idx := 1,
      rx_buffer := 0x13 :: List.replicate (MAX_PACKET_SIZE - 1) 0 }

/-- An empty queue whose head/tail cursors sit at slot 1 (reachable by one
push followed by one pop). -/
def stHead1 : FwState :=
  { initState with
      cmdQueue := { slots := List.replicate QUEUE_SIZE defaultPacket,
                    head := 1, tail := 1, count := 0 } }

/-- A `MOUSE_PRESS` command with no parameter byte (arity mismatch). -/
def pktBadPress : CommandPacket := { cmd := CMD_MOUSE_PRESS, params := [], timestamp := 0 }

/-- A `KB_PRINT` command carrying four bytes. -/
def pktPrint : CommandPacket := { cmd := CMD_KB_PRINT, params := [10, 20, 30, 40], timestamp := 0 }

/-- A sample loop input: no interrupt, one valid `MOUSE_CLICK(LEFT)` frame. -/
def inpClick : LoopInput :=
  { interrupt := false
    bytes := [0xAA, 0x02, 0x04, 0x01, crc8 [0x04, 0x01]]
    now := 10
    intrDuring := fun _ => false }

-- ========== General helper lemmas ==========

theorem getD_set_self {α : Type} (l : List α) (i : Nat) (v d : α) (h : i < l.length) :
    (l.set i v).getD i d = v := by
  simp [List.getD_eq_getElem?_getD, List.getElem?_set_self h]

theorem getD_set_ne {α : Type} (l : List α) {i j : Nat} (v d : α) (h : i ≠ j) :
    (l.set i v).getD j d = l.getD j d := by
  simp [List.getD_eq_getElem?_getD, List.getElem?_set_ne h]

theorem kbPrintWritesFrom_prefix_of (isr : Nat → Bool) :
    ∀ (l : List Nat) (i : Nat), kbPrintWritesFrom isr i l <+: l := by
  intro l
  induction l with
  | nil => intro i; simp [kbPrintWritesFrom]
  | cons b rest ih =>
    intro i
    simp only [kbPrintWritesFrom]
    split
    · exact List.nil_prefix
    · obtain ⟨t, ht⟩ := ih (i + 1)
      exact ⟨t, by rw [List.cons_append, ht]⟩

theorem kbPrintWrites_prefix_of (isr : Nat → Bool) (params : List Nat) :
    kbPrintWrites isr params <+: params :=
  kbPrintWritesFrom_prefix_of isr params 0

theorem hidOf_map_kbWrite (l : List Nat) :
    hidOf (l.map fun b => Event.hid (HidCall.kbWrite b)) = l.map HidCall.kbWrite := by
  induction l with
  | nil => rfl
  | cons a t ih => simpa [hidOf, List.filterMap_cons] using ih

-- ========== Claim C1: interrupt servicing ==========

/-- Claim C1: when the main loop services a pending hardware interrupt it
performs, in order: the interrupt log, queue clear, `Keyboard.releaseAll`,
release of all three mouse buttons (mask 7), release and deactivation of an
active TimedAction slot, a single `ACK_INTERRUPTED` (0xF4) byte, and the
flag clear; afterwards the queue is empty, the slot is inactive, the flag is
clear, and applying the emitted HID calls to any device state leaves no
firmware-held key or button. -/
theorem interrupt_service_claim (st : FwState) (h : HidState)
    (hflag : st.g_interrupt_flag = true) :
    (serviceInterrupt st).2 =
      [Event.log LogEvent.interrupt, Event.hid HidCall.kbReleaseAll,
       Event.hid (HidCall.mouseRelease 7)] ++
      (if st.timedAction.active then
         [Event.hid (if st.timedAction.action_type = 0 then
                       HidCall.mouseRelease st.timedAction.button_or_key
                     else HidCall.kbRelease st.timedAction.button_or_key)]
       else []) ++
      [Event.ack ACK_INTERRUPTED, Event.log (LogEvent.ackLog ACK_INTERRUPTED)] ∧
    (serviceInterrupt st).1.cmdQueue.count = 0 ∧
    (serviceInterrupt st).1.cmdQueue.toList = [] ∧
    (serviceInterrupt st).1.timedAction.active = false ∧
    (serviceInterrupt st).1.g_interrupt_flag = false ∧
    (applyHids h (hidOf (serviceInterrupt st).2)).heldKeys = [] ∧
    (applyHids h (hidOf (serviceInterrupt st).2)).heldButtons = 0 := by
  unfold serviceInterrupt
  rw [hflag]
  by_cases hact : st.timedAction.active
  · by_cases hty : st.timedAction.action_type = 0 <;>
      simp [hact, hty, sendAck, CommandQueue.clear, CommandQueue.toList, hidOf, applyHids,
        applyHid, Nat.and_zero, Nat.zero_and, List.filterMap_cons]
  · simp [hact, sendAck, CommandQueue.clear, CommandQueue.toList, hidOf, applyHids,
      applyHid, Nat.and_zero, Nat.zero_and, List.filterMap_cons]

/-- Witness for C1 at a concrete pending-interrupt state and device state. -/
theorem interrupt_service_claim_witness :
    stIntr.g_interrupt_flag = true ∧
    (serviceInterrupt stIntr).1.cmdQueue.count = 0 ∧
    (serviceInterrupt stIntr).1.timedAction.active = false ∧
    (serviceInterrupt stIntr).1.g_interrupt_flag = false ∧
    (applyHids hid0 (hidOf (serviceInterrupt stIntr).2)).heldKeys = [] ∧
    (applyHids hid0 (hidOf (serviceInterrupt stIntr).2)).heldButtons = 0 :=
  ⟨rfl, (interrupt_service_claim stIntr hid0 rfl).2.1,
    (interrupt_service_claim stIntr hid0 rfl).2.2.2.1,
    (interrupt_service_claim stIntr hid0 rfl).2.2.2.2.1,
    (interrupt_service_claim stIntr hid0 rfl).2.2.2.2.2.1,
    (interrupt_service_claim stIntr hid0 rfl).2.2.2.2.2.2⟩

-- ========== Claim C3: arity mismatches in the executor ==========

/-- Claim C3 counterexample: a dequeued `MOUSE_PRESS` command with zero
parameter bytes is an arity mismatch, yet `executeCommand` emits no event at
all — in particular no log entry — refuting "emits a log entry for the
mismatch". -/
theorem arity_mismatch_counterexample :
    initState.g_interrupt_flag = false ∧ arityMismatch pktBadPress ∧
    (executeCommand (fun _ => false) initState pktBadPress 0).2 = [] := by
  decide

/-- Claim C3 (amended): a dequeued data-plane command whose params length
does not match its opcode's arity is dropped without any HID call, without
any ACK, and without touching the state; a `PARAM_ERROR` log entry is
emitted only for `MOUSE_MOVE` — every other fixed-arity opcode is dropped
silently, with no log entry. -/
theorem arity_mismatch_drop (isr : Nat → Bool) (st : FwState) (p : CommandPacket) (now : Nat)
    (hflag : st.g_interrupt_flag = false) (hm : arityMismatch p) :
    (executeCommand isr st p now).1 = st ∧
    hidOf (executeCommand isr st p now).2 = [] ∧
    acksOf (executeCommand isr st p now).2 = [] ∧
    logsOf (executeCommand isr st p now).2 =
      (if p.cmd = CMD_MOUSE_MOVE then [LogEvent.paramError p.cmd 3 p.params.length]
       else []) := by
  rcases hm with ⟨h1 | h1 | h1, h2⟩ | ⟨h1 | h1 | h1 | h1 | h1 | h1, h2⟩ <;>
    simp [executeCommand, hflag, h1, h2, hidOf, acksOf, logsOf,
      CMD_MOUSE_MOVE, CMD_MOUSE_PRESS, CMD_MOUSE_RELEASE, CMD_MOUSE_CLICK,
      CMD_MOUSE_PRESS_TIMED, CMD_KB_PRESS, CMD_KB_RELEASE, CMD_KB_WRITE,
      CMD_KB_RELEASE_ALL, CMD_KB_PRINT, CMD_KB_PRESS_TIMED,
      CMD_PAUSE_LOG, CMD_RESUME_LOG, CMD_CLEAR_QUEUE]

/-- Witness for the amended C3 at the concrete mismatched `MOUSE_PRESS`. -/
theorem arity_mismatch_drop_witness :
    initState.g_interrupt_flag = false ∧ arityMismatch pktBadPress ∧
    (executeCommand (fun _ => false) initState pktBadPress 0).1 = initState ∧
    logsOf (executeCommand (fun _ => false) initState pktBadPress 0).2 =
      (if pktBadPress.cmd = CMD_MOUSE_MOVE then
        [LogEvent.paramError pktBadPress.cmd 3 pktBadPress.params.length]
       else []) :=
  ⟨rfl, by decide,
    (arity_mismatch_drop (fun _ => false) initState pktBadPress 0 rfl (by decide)).1,
    (arity_mismatch_drop (fun _ => false) initState pktBadPress 0 rfl (by decide)).2.2.2⟩

-- ========== Claim C5: the S_LEN state ==========

/-- Claim C5: in S_LEN, a length byte `L` with `L == 0` or `L > 31` produces
an `INVALID_LENGTH` log, `ACK_PARAM_ERROR`, and a return to S_SYNC; a length
in `1..=31` records `rx_len = L` and enters S_PAYLOAD with payload index 0.
(The byte `0xAA` is just the length value 170 and is rejected; the witness
instantiates this.) -/
theorem s_len_claim (isr : Nat → Bool) (st : FwState) (b now : Nat)
    (hst : st.rx_state = 1) :
    (b % 256 = 0 ∨ b % 256 > 31 →
      stepByte isr st b now =
        ({ st with rx_len := b % 256, rx_state := 0 },
         [Event.log (LogEvent.error "INVALID_LENGTH"), Event.ack ACK_PARAM_ERROR,
          Event.log (LogEvent.ackLog ACK_PARAM_ERROR)])) ∧
    (1 ≤ b % 256 → b % 256 ≤ 31 →
      stepByte isr st b now =
        ({ st with rx_len := b % 256, rx_state := 2, rx_idx := 0 },
         [Event.log (LogEvent.packetReceived (b % 256))])) := by
  constructor
  · intro hbad
    simp [stepByte, hst, sendAck, MAX_PACKET_SIZE, hbad]
  · intro hlo hhi
    have hne : ¬(b % 256 = 0 ∨ b % 256 > 31) := by omega
    simp [stepByte, hst, sendAck, MAX_PACKET_SIZE, hne]

/-- Witness for C5: a second `0xAA` arriving in S_LEN is the length 170 and
is rejected as `INVALID_LENGTH`. -/
theorem s_len_claim_witness :
    stSLen.rx_state = 1 ∧ (0xAA % 256 = 0 ∨ 0xAA % 256 > 31) ∧
    stepByte (fun _ => false) stSLen 0xAA 0 =
      ({ stSLen with rx_len := 0xAA % 256, rx_state := 0 },
       [Event.log (LogEvent.error "INVALID_LENGTH"), Event.ack ACK_PARAM_ERROR,
        Event.log (LogEvent.ackLog ACK_PARAM_ERROR)]) :=
  ⟨rfl, by decide,
    (s_len_claim (fun _ => false) stSLen 0xAA 0 rfl).1 (by decide)⟩

-- ========== Projection helpers for event traces ==========

theorem hidOf_nil : hidOf [] = [] := rfl

theorem hidOf_cons_log (l : LogEvent) (t : List Event) :
    hidOf (Event.log l :: t) = hidOf t := by simp [hidOf]

theorem hidOf_cons_ack (c : Nat) (t : List Event) :
    hidOf (Event.ack c :: t) = hidOf t := by simp [hidOf]

theorem hidOf_cons_hid (c : HidCall) (t : List Event) :
    hidOf (Event.hid c :: t) = c :: hidOf t := by simp [hidOf]

theorem hidOf_append (a b : List Event) : hidOf (a ++ b) = hidOf a ++ hidOf b := by
  simp [hidOf, List.filterMap_append]

theorem acksOf_nil : acksOf [] = [] := rfl

theorem acksOf_cons_log (l : LogEvent) (t : List Event) :
    acksOf (Event.log l :: t) = acksOf t := by simp [acksOf]

theorem acksOf_cons_ack (c : Nat) (t : List Event) :
    acksOf (Event.ack c :: t) = c :: acksOf t := by simp [acksOf]

theorem acksOf_cons_hid (c : HidCall) (t : List Event) :
    acksOf (Event.hid c :: t) = acksOf t := by simp [acksOf]

theorem acksOf_append (a b : List Event) : acksOf (a ++ b) = acksOf a ++ acksOf b := by
  simp [acksOf, List.filterMap_append]

-- ========== Executor branch equations ==========

/-- `executeCommand` on a `KB_PRINT` packet with the flag clear: the two log
invocations followed by one `Keyboard.write` per byte surviving the per-byte
interrupt check; the state is untouched. -/
theorem exec_kbprint (isr : Nat → Bool) (st : FwState) (p : CommandPacket) (now : Nat)
    (hflag : st.g_interrupt_flag = false) (hc : p.cmd = CMD_KB_PRINT) :
    executeCommand isr st p now =
      (st, [Event.log (LogEvent.command "KB_PRINT"), Event.log LogEvent.keyboardPrint] ++
           (kbPrintWrites isr p.params).map fun b => Event.hid (HidCall.kbWrite b)) := by
  simp [executeCommand, hflag, hc,
    CMD_MOUSE_MOVE, CMD_MOUSE_PRESS, CMD_MOUSE_RELEASE, CMD_MOUSE_CLICK,
    CMD_MOUSE_PRESS_TIMED, CMD_KB_PRESS, CMD_KB_RELEASE, CMD_KB_WRITE,
    CMD_KB_RELEASE_ALL, CMD_KB_PRINT]

/-- `executeCommand` on a `CLEAR_QUEUE` packet with the flag clear: the
queue is cleared in place and nothing else changes. -/
theorem exec_clear (isr : Nat → Bool) (st : FwState) (p : CommandPacket) (now : Nat)
    (hflag : st.g_interrupt_flag = false) (hc : p.cmd = CMD_CLEAR_QUEUE) :
    executeCommand isr st p now =
      ({ st with cmdQueue := st.cmdQueue.clear },
       [Event.log (LogEvent.command "QUEUE_CLEARED")]) := by
  simp [executeCommand, hflag, hc,
    CMD_MOUSE_MOVE, CMD_MOUSE_PRESS, CMD_MOUSE_RELEASE, CMD_MOUSE_CLICK,
    CMD_MOUSE_PRESS_TIMED, CMD_KB_PRESS, CMD_KB_RELEASE, CMD_KB_WRITE,
    CMD_KB_RELEASE_ALL, CMD_KB_PRINT, CMD_KB_PRESS_TIMED,
    CMD_PAUSE_LOG, CMD_RESUME_LOG, CMD_CLEAR_QUEUE]

/-- `processPacket` on a control-plane opcode (with `len ≥ 1`): execute
synchronously, then ACK success. -/
theorem processPacket_ctl (isr : Nat → Bool) (st : FwState) (data : List Nat) (len now : Nat)
    (hlen : ¬ len < 1)
    (hctl : data.getD 0 0 = CMD_PAUSE_LOG ∨ data.getD 0 0 = CMD_RESUME_LOG ∨
            data.getD 0 0 = CMD_CLEAR_QUEUE) :
    processPacket isr st data len now =
      ((executeCommand isr st
          { cmd := data.getD 0 0, params := (data.drop 1).take (len - 1), timestamp := now } now).1,
       [Event.log LogEvent.packetData] ++
         (executeCommand isr st
           { cmd := data.getD 0 0, params := (data.drop 1).take (len - 1), timestamp := now } now).2 ++
         sendAck ACK_SUCCESS) := by
  simp only [processPacket]
  rw [if_neg hlen, if_pos hctl]

-- ========== Claim C7: KB_PRINT and the mid-execution interrupt check ==========

/-- Claim C7: for a `KB_PRINT` command the executor checks the interrupt
flag before each byte and stops at the first set read, so the keyboard
writes are exactly `kbPrintWrites isr params`, which is a prefix of the
params; and `KB_PRINT` is the only opcode whose execution observes the flag
mid-execution — for every other opcode the result is independent of the
`isr` oracle. -/
theorem kb_print_claim (isr : Nat → Bool) (st : FwState) (p : CommandPacket) (now : Nat)
    (hflag : st.g_interrupt_flag = false) :
    (p.cmd = CMD_KB_PRINT →
      hidOf (executeCommand isr st p now).2 = (kbPrintWrites isr p.params).map HidCall.kbWrite ∧
      kbPrintWrites isr p.params <+: p.params) ∧
    (p.cmd ≠ CMD_KB_PRINT →
      executeCommand isr st p now = executeCommand (fun _ => false) st p now) := by
  constructor
  · intro hc
    refine ⟨?_, kbPrintWrites_prefix_of isr p.params⟩
    rw [exec_kbprint isr st p now hflag hc]
    rw [show ((st, [Event.log (LogEvent.command "KB_PRINT"), Event.log LogEvent.keyboardPrint] ++
          (kbPrintWrites isr p.params).map fun b => Event.hid (HidCall.kbWrite b)) :
        FwState × List Event).2 =
        [Event.log (LogEvent.command "KB_PRINT"), Event.log LogEvent.keyboardPrint] ++
          (kbPrintWrites isr p.params).map (fun b => Event.hid (HidCall.kbWrite b)) from rfl]
    rw [hidOf_append, hidOf_cons_log, hidOf_cons_log, hidOf_nil, hidOf_map_kbWrite]
    rfl
  · intro hn
    simp [executeCommand, hn]

/-- Witness for C7 at a concrete `KB_PRINT` packet and an oracle that fires
before the third byte (only the first two bytes are written). -/
theorem kb_print_claim_witness :
    initState.g_interrupt_flag = false ∧ pktPrint.cmd = CMD_KB_PRINT ∧
    hidOf (executeCommand (fun i => decide (2 ≤ i)) initState pktPrint 0).2 =
      (kbPrintWrites (fun i => decide (2 ≤ i)) pktPrint.params).map HidCall.kbWrite ∧
    kbPrintWrites (fun i => decide (2 ≤ i)) pktPrint.params <+: pktPrint.params :=
  ⟨rfl, rfl,
    (kb_print_claim (fun i => decide (2 ≤ i)) initState pktPrint 0 rfl).1 rfl⟩

-- ========== Claim C8: CLEAR_QUEUE ==========

/-- Claim C8 counterexample: on an already-empty queue whose head/tail
cursors sit at slot 1 (reachable by one push then one pop), a `CLEAR_QUEUE`
frame is *not* a no-op on the whole state — `CommandQueue::clear` resets the
internal head/tail indices to 0. -/
theorem clear_queue_counterexample :
    stHead1.cmdQueue.count = 0 ∧ stHead1.g_interrupt_flag = false ∧
    (processPacket (fun _ => false) stHead1 [CMD_CLEAR_QUEUE] 1 0).1 ≠ stHead1 ∧
    (processPacket (fun _ => false) stHead1 [CMD_CLEAR_QUEUE] 1 0).1.cmdQueue.head ≠
      stHead1.cmdQueue.head := by
  decide

/-- Claim C8 (amended): a `CLEAR_QUEUE` (0x22) frame empties the command
queue (`head = tail = count = 0`, slot array untouched) and changes nothing
else — the TimedAction slot, both flags and the parser registers are
unchanged — and is always answered with `ACK_SUCCESS`; on an already-empty
queue the observable state (queue contents, TimedAction slot, flags) is
unchanged, but the queue's internal head/tail cursors are reset to 0, so it
is a no-op only up to the ring-buffer representation. -/
theorem clear_queue_claim (isr : Nat → Bool) (st : FwState) (data : List Nat) (len now : Nat)
    (hlen : 1 ≤ len) (hcmd : data.getD 0 0 = CMD_CLEAR_QUEUE)
    (hflag : st.g_interrupt_flag = false) :
    (processPacket isr st data len now).1 = { st with cmdQueue := st.cmdQueue.clear } ∧
    (processPacket isr st data len now).1.cmdQueue.toList = [] ∧
    (processPacket isr st data len now).1.cmdQueue.count = 0 ∧
    (processPacket isr st data len now).1.cmdQueue.slots = st.cmdQueue.slots ∧
    (processPacket isr st data len now).1.timedAction = st.timedAction ∧
    (processPacket isr st data len now).1.g_log_enabled = st.g_log_enabled ∧
    (processPacket isr st data len now).1.g_interrupt_flag = false ∧
    acksOf (processPacket isr st data len now).2 = [ACK_SUCCESS] := by
  have hl : ¬ len < 1 := by omega
  rw [processPacket_ctl isr st data len now hl (Or.inr (Or.inr hcmd))]
  rw [exec_clear isr st
    { cmd := data.getD 0 0, params := (data.drop 1).take (len - 1), timestamp := now } now
    hflag hcmd]
  refine ⟨rfl, ?_, rfl, rfl, rfl, rfl, hflag, ?_⟩
  · simp [CommandQueue.toList, CommandQueue.clear]
  · simp [sendAck, acksOf_append, acksOf_cons_log, acksOf_cons_ack, acksOf_nil]

/-- Witness for the amended C8 on the head-at-1 empty queue. -/
theorem clear_queue_claim_witness :
    (1 ≤ 1 ∧ ([CMD_CLEAR_QUEUE] : List Nat).getD 0 0 = CMD_CLEAR_QUEUE ∧
      stHead1.g_interrupt_flag = false) ∧
    (processPacket (fun _ => false) stHead1 [CMD_CLEAR_QUEUE] 1 0).1 =
      { stHead1 with cmdQueue := stHead1.cmdQueue.clear } ∧
    acksOf (processPacket (fun _ => false) stHead1 [CMD_CLEAR_QUEUE] 1 0).2 = [ACK_SUCCESS] :=
  ⟨⟨le_refl 1, rfl, rfl⟩,
    (clear_queue_claim (fun _ => false) stHead1 [CMD_CLEAR_QUEUE] 1 0 (le_refl 1) rfl rfl).1,
    (clear_queue_claim (fun _ => false) stHead1 [CMD_CLEAR_QUEUE] 1 0 (le_refl 1) rfl rfl).2.2.2.2.2.2.2⟩

-- ========== Claim C6: the S_PAYLOAD completion step ==========

/-- Claim C6: in S_PAYLOAD, once `rx_len + 1` bytes have accumulated
(`rx_idx = rx_len` when the final byte arrives), the payload is handed to
`processPacket` exactly when the table-driven CRC-8 of the first `rx_len`
bytes equals the final byte; on mismatch a `CRC_MISMATCH` log carrying the
expected (computed) and received values is emitted and `ACK_CRC_ERROR` is
sent; in both cases the parser returns to S_SYNC. -/
theorem s_payload_claim (isr : Nat → Bool) (st : FwState) (b now : Nat)
    (hst : st.rx_state = 2) (hidx : st.rx_idx = st.rx_len) :
    ((st.rx_buffer.set st.rx_idx (b % 256)).getD st.rx_len 0 =
        crc8 ((st.rx_buffer.set st.rx_idx (b % 256)).take st.rx_len) →
      stepByte isr st b now =
        ({ (processPacket isr
              { st with
                  rx_buffer := st.rx_buffer.set st.rx_idx (b % 256),
                  rx_idx := st.rx_idx + 1 }
              (st.rx_buffer.set st.rx_idx (b % 256)) st.rx_len now).1 with
            rx_state := 0, rx_idx := 0 },
         (processPacket isr
            { st with
                rx_buffer := st.rx_buffer.set st.rx_idx (b % 256),
                rx_idx := st.rx_idx + 1 }
            (st.rx_buffer.set st.rx_idx (b % 256)) st.rx_len now).2)) ∧
    (¬ (st.rx_buffer.set st.rx_idx (b % 256)).getD st.rx_len 0 =
        crc8 ((st.rx_buffer.set st.rx_idx (b % 256)).take st.rx_len) →
      stepByte isr st b now =
        ({ st with
            rx_buffer := st.rx_buffer.set st.rx_idx (b % 256),
            rx_idx := 0, rx_state := 0 },
         [Event.log (LogEvent.crcError
            (crc8 ((st.rx_buffer.set st.rx_idx (b % 256)).take st.rx_len))
            ((st.rx_buffer.set st.rx_idx (b % 256)).getD st.rx_len 0)),
          Event.ack ACK_CRC_ERROR, Event.log (LogEvent.ackLog ACK_CRC_ERROR)])) := by
  have hc : st.rx_idx + 1 = st.rx_len + 1 := by omega
  constructor
  · intro hok
    simp only [stepByte]
    rw [if_neg (by omega : ¬ st.rx_state = 0), if_neg (by omega : ¬ st.rx_state = 1),
      if_pos hst, if_pos hc, if_pos hok]
  · intro hbad
    simp only [stepByte]
    rw [if_neg (by omega : ¬ st.rx_state = 0), if_neg (by omega : ¬ st.rx_state = 1),
      if_pos hst, if_pos hc, if_neg hbad]
    rfl

/-- Witness for C6: completing the one-byte payload `[0x13]` with its
correct CRC byte `0x7F` hands the payload to the dispatcher. -/
theorem s_payload_claim_witness :
    stSPay.rx_state = 2 ∧ stSPay.rx_idx = stSPay.rx_len ∧
    (stSPay.rx_buffer.set stSPay.rx_idx (0x7F % 256)).getD stSPay.rx_len 0 =
      crc8 ((stSPay.rx_buffer.set stSPay.rx_idx (0x7F % 256)).take stSPay.rx_len) ∧
    stepByte (fun _ => false) stSPay 0x7F 0 =
      ({ (processPacket (fun _ => false)
            { stSPay with
                rx_buffer := stSPay.rx_buffer.set stSPay.rx_idx (0x7F % 256),
                rx_idx := stSPay.rx_idx + 1 }
            (stSPay.rx_buffer.set stSPay.rx_idx (0x7F % 256)) stSPay.rx_len 0).1 with
          rx_state := 0, rx_idx := 0 },
       (processPacket (fun _ => false)
          { stSPay with
              rx_buffer := stSPay.rx_buffer.set stSPay.rx_idx (0x7F % 256),
              rx_idx := stSPay.rx_idx + 1 }
          (stSPay.rx_buffer.set stSPay.rx_idx (0x7F % 256)) stSPay.rx_len 0).2) :=
  ⟨rfl, rfl, by decide,
    (s_payload_claim (fun _ => false) stSPay 0x7F 0 rfl rfl).1 (by decide)⟩

-- ========== Interrupt-flag preservation lemmas ==========

theorem exec_flag (isr : Nat → Bool) (st : FwState) (p : CommandPacket) (now : Nat) :
    (executeCommand isr st p now).1.g_interrupt_flag = st.g_interrupt_flag := by
  simp only [executeCommand,
    apply_ite (fun r : FwState × List Event => r.1.g_interrupt_flag), ite_self]

theorem processPacket_flag (isr : Nat → Bool) (st : FwState) (data : List Nat) (len now : Nat) :
    (processPacket isr st data len now).1.g_interrupt_flag = st.g_interrupt_flag := by
  simp only [processPacket]
  repeat' first | rfl | (exact exec_flag _ _ _ _) | split

theorem stepByte_flag (isr : Nat → Bool) (st : FwState) (b now : Nat) :
    (stepByte isr st b now).1.g_interrupt_flag = st.g_interrupt_flag := by
  simp only [stepByte]
  repeat' first | rfl | (exact processPacket_flag _ _ _ _ _) | split

theorem parseBytes_flag (isr : Nat → Bool) (bytes : List Nat) :
    ∀ (st : FwState) (now : Nat),
      (parseBytes isr st bytes now).1.g_interrupt_flag = st.g_interrupt_flag := by
  induction bytes with
  | nil => intro st now; rfl
  | cons b rest ih =>
    intro st now
    simp only [parseBytes]
    rw [ih, stepByte_flag]

theorem service_flag (st : FwState) : (serviceInterrupt st).1.g_interrupt_flag = false := by
  unfold serviceInterrupt
  split_ifs with h
  · rfl
  · simpa using h

theorem poll_flag (st : FwState) (now : Nat) :
    (pollTimedAction st now).1.g_interrupt_flag = st.g_interrupt_flag := by
  unfold pollTimedAction
  split_ifs <;> rfl

theorem sections123_flag (st : FwState) (inp : LoopInput) :
    (sections123 st inp).1.g_interrupt_flag = false := by
  simp only [sections123]
  rw [parseBytes_flag, poll_flag, service_flag]

-- ========== Claim C2: executor gating ==========

/-- Claim C2: in every main-loop iteration the executor runs after sections
1-3, whose resulting state always has a clear interrupt flag (section 1
clears it and nothing in sections 2-3 sets it); `executorStep` pops a
command exactly when no TimedAction is active and the queue is non-empty —
so a command is only ever popped with the flag clear, a TimedAction
inactive, and the queue non-empty. -/
theorem executor_gating_claim (st : FwState) (inp : LoopInput) (s3 : FwState)
    (h3 : s3 = (sections123 st inp).1) :
    s3.g_interrupt_flag = false ∧
    ((s3.timedAction.active = true ∨ s3.cmdQueue.count = 0) →
      executorStep inp.intrDuring s3 inp.now = (s3, [])) ∧
    (s3.timedAction.active = false → s3.cmdQueue.count ≠ 0 →
      executorStep inp.intrDuring s3 inp.now =
        executeCommand inp.intrDuring
          { s3 with
              cmdQueue := { slots := s3.cmdQueue.slots,
                            head := (s3.cmdQueue.head + 1) % QUEUE_SIZE,
                            tail := s3.cmdQueue.tail,
                            count := s3.cmdQueue.count - 1 } }
          (s3.cmdQueue.slots.getD s3.cmdQueue.head defaultPacket) inp.now) := by
  refine ⟨by rw [h3]; exact sections123_flag st inp, ?_, ?_⟩
  · intro h
    rcases h with h | h <;> simp [executorStep, CommandQueue.isEmpty, h]
  · intro ha hc
    simp [executorStep, CommandQueue.isEmpty, CommandQueue.pop, ha, hc]

/-- Witness for C2: after parsing one valid `MOUSE_CLICK(LEFT)` frame the
queue is non-empty, no TimedAction is active, the flag is clear, and the
executor pops exactly that command. -/
theorem executor_gating_claim_witness :
    (sections123 initState inpClick).1.g_interrupt_flag = false ∧
    (sections123 initState inpClick).1.timedAction.active = false ∧
    (sections123 initState inpClick).1.cmdQueue.count ≠ 0 ∧
    executorStep inpClick.intrDuring (sections123 initState inpClick).1 inpClick.now =
      executeCommand inpClick.intrDuring
        { (sections123 initState inpClick).1 with
            cmdQueue := { slots := (sections123 initState inpClick).1.cmdQueue.slots,
                          head := ((sections123 initState inpClick).1.cmdQueue.head + 1) % QUEUE_SIZE,
                          tail := (sections123 initState inpClick).1.cmdQueue.tail,
                          count := (sections123 initState inpClick).1.cmdQueue.count - 1 } }
        ((sections123 initState inpClick).1.cmdQueue.slots.getD
          (sections123 initState inpClick).1.cmdQueue.head defaultPacket) inpClick.now :=
  ⟨(executor_gating_claim initState inpClick _ rfl).1, by decide, by decide,
    (executor_gating_claim initState inpClick _ rfl).2.2 (by decide) (by decide)⟩

-- ========== Ring-buffer correctness for push ==========

theorem toList_push (q : CommandQueue) (p : CommandPacket) (q2 : CommandQueue)
    (hwf : q.WF) (h : q.push p = some q2) :
    q2.toList = q.toList ++ [p] := by
  obtain ⟨hlen, hhead, hcount, htail⟩ := hwf
  have hc : ¬ q.count ≥ QUEUE_SIZE := by
    intro hge
    simp [CommandQueue.push, hge] at h
  have hcc : q.count < QUEUE_SIZE := by omega
  have hq2 : q2 = { slots := q.slots.set q.tail p, head := q.head,
                    tail := (q.tail + 1) % QUEUE_SIZE, count := q.count + 1 } := by
    simp [CommandQueue.push, hc] at h
    exact h.symm
  subst hq2
  unfold CommandQueue.toList
  dsimp only
  rw [List.range_succ, List.map_append]
  congr 1
  · apply List.map_congr_left
    intro i hi
    rw [List.mem_range] at hi
    apply getD_set_ne
    rw [htail]
    unfold QUEUE_SIZE at *
    omega
  · simp only [List.map_cons, List.map_nil]
    rw [htail]
    congr 1
    apply getD_set_self
    rw [hlen]
    unfold QUEUE_SIZE at *
    omega

-- ========== Claim C4: the admission rule ==========

/-- Claim C4: for a CRC-valid payload whose opcode is not control-plane
(0x20/0x21/0x22), including unknown opcodes: with the queue at its 16-entry
capacity the frame is dropped (state unchanged), a `QUEUE_FULL` error is
logged and `ACK_PARAM_ERROR` is sent; otherwise the decoded command —
timestamped with the current `millis()` value — is appended to the queue and
`ACK_SUCCESS` is sent. -/
theorem admission_claim (isr : Nat → Bool) (st : FwState) (data : List Nat) (len now : Nat)
    (hlen : 1 ≤ len)
    (h20 : data.getD 0 0 ≠ CMD_PAUSE_LOG) (h21 : data.getD 0 0 ≠ CMD_RESUME_LOG)
    (h22 : data.getD 0 0 ≠ CMD_CLEAR_QUEUE) (hwf : st.cmdQueue.WF) :
    (st.cmdQueue.count = QUEUE_SIZE →
      processPacket isr st data len now =
        (st, [Event.log LogEvent.packetData, Event.log (LogEvent.error "QUEUE_FULL"),
              Event.ack ACK_PARAM_ERROR, Event.log (LogEvent.ackLog ACK_PARAM_ERROR)])) ∧
    (st.cmdQueue.count < QUEUE_SIZE →
      (processPacket isr st data len now).1.cmdQueue.toList =
        st.cmdQueue.toList ++
          [{ cmd := data.getD 0 0, params := (data.drop 1).take (len - 1), timestamp := now }] ∧
      (processPacket isr st data len now).1 =
        { st with
            cmdQueue := { slots := st.cmdQueue.slots.set st.cmdQueue.tail
                            { cmd := data.getD 0 0, params := (data.drop 1).take (len - 1),
                              timestamp := now },
                          head := st.cmdQueue.head,
                          tail := (st.cmdQueue.tail + 1) % QUEUE_SIZE,
                          count := st.cmdQueue.count + 1 } } ∧
      (processPacket isr st data len now).2 =
        [Event.log LogEvent.packetData, Event.log LogEvent.queueStatus,
         Event.ack ACK_SUCCESS, Event.log (LogEvent.ackLog ACK_SUCCESS)]) := by
  have hl : ¬ len < 1 := by omega
  have hctl : ¬ (data.getD 0 0 = CMD_PAUSE_LOG ∨ data.getD 0 0 = CMD_RESUME_LOG ∨
      data.getD 0 0 = CMD_CLEAR_QUEUE) := by
    rintro (h | h | h) <;> [exact h20 h; exact h21 h; exact h22 h]
  constructor
  · intro hfull
    have hge : st.cmdQueue.count ≥ QUEUE_SIZE := by omega
    simp only [processPacket]
    rw [if_neg hl, if_neg hctl]
    simp [CommandQueue.push, hge, sendAck]
  · intro hlt
    have hge : ¬ st.cmdQueue.count ≥ QUEUE_SIZE := by omega
    have hpush : st.cmdQueue.push
        { cmd := data.getD 0 0, params := (data.drop 1).take (len - 1), timestamp := now } =
        some { slots := st.cmdQueue.slots.set st.cmdQueue.tail
                 { cmd := data.getD 0 0, params := (data.drop 1).take (len - 1), timestamp := now },
               head := st.cmdQueue.head,
               tail := (st.cmdQueue.tail + 1) % QUEUE_SIZE,
               count := st.cmdQueue.count + 1 } := by
      simp [CommandQueue.push, hge]
    have hpp : processPacket isr st data len now =
        ({ st with
            cmdQueue := { slots := st.cmdQueue.slots.set st.cmdQueue.tail
                            { cmd := data.getD 0 0, params := (data.drop 1).take (len - 1),
                              timestamp := now },
                          head := st.cmdQueue.head,
                          tail := (st.cmdQueue.tail + 1) % QUEUE_SIZE,
                          count := st.cmdQueue.count + 1 } },
         [Event.log LogEvent.packetData, Event.log LogEvent.queueStatus,
          Event.ack ACK_SUCCESS, Event.log (LogEvent.ackLog ACK_SUCCESS)]) := by
      simp only [processPacket]
      rw [if_neg hl, if_neg hctl]
      rw [hpush]
      rfl
    refine ⟨?_, by rw [hpp], by rw [hpp]⟩
    rw [hpp]
    exact toList_push st.cmdQueue _ _ hwf hpush

/-- Witness for C4 at an empty well-formed queue and an unknown opcode
frame `[0x99, 0x07]`. -/
theorem admission_claim_witness :
    (1 ≤ 2 ∧ ([0x99, 0x07] : List Nat).getD 0 0 ≠ CMD_PAUSE_LOG ∧
      ([0x99, 0x07] : List Nat).getD 0 0 ≠ CMD_RESUME_LOG ∧
      ([0x99, 0x07] : List Nat).getD 0 0 ≠ CMD_CLEAR_QUEUE ∧
      initState.cmdQueue.WF ∧ initState.cmdQueue.count < QUEUE_SIZE) ∧
    (processPacket (fun _ => false) initState [0x99, 0x07] 2 42).1.cmdQueue.toList =
      initState.cmdQueue.toList ++
        [{ cmd := ([0x99, 0x07] : List Nat).getD 0 0,
           params := (([0x99, 0x07] : List Nat).drop 1).take (2 - 1), timestamp := 42 }] ∧
    (processPacket (fun _ => false) initState [0x99, 0x07] 2 42).2 =
      [Event.log LogEvent.packetData, Event.log LogEvent.queueStatus,
       Event.ack ACK_SUCCESS, Event.log (LogEvent.ackLog ACK_SUCCESS)] :=
  ⟨⟨by decide, by decide, by decide, by decide, by decide, by decide⟩,
    ((admission_claim (fun _ => false) initState [0x99, 0x07] 2 42 (by decide)
        (by decide) (by decide) (by decide) (by decide)).2 (by decide)).1,
    ((admission_claim (fun _ => false) initState [0x99, 0x07] 2 42 (by decide)
        (by decide) (by decide) (by decide) (by decide)).2 (by decide)).2.2⟩

-- ========== Parser-invariant lemmas (claim C10) ==========

theorem exec_rx_buffer (isr : Nat → Bool) (st : FwState) (p : CommandPacket) (now : Nat) :
    (executeCommand isr st p now).1.rx_buffer = st.rx_buffer := by
  simp only [executeCommand,
    apply_ite (fun r : FwState × List Event => r.1.rx_buffer), ite_self]

theorem exec_no_empty (isr : Nat → Bool) (st : FwState) (p : CommandPacket) (now : Nat) :
    Event.log (LogEvent.error "EMPTY_PACKET") ∉ (executeCommand isr st p now).2 := by
  simp only [executeCommand, apply_ite (fun r : FwState × List Event => r.2)]
  simp only [apply_ite (fun l : List Event => Event.log (LogEvent.error "EMPTY_PACKET") ∈ l)]
  simp

theorem processPacket_rx_buffer (isr : Nat → Bool) (st : FwState) (data : List Nat) (len now : Nat) :
    (processPacket isr st data len now).1.rx_buffer = st.rx_buffer := by
  simp only [processPacket]
  repeat' first | rfl | (exact exec_rx_buffer _ _ _ _) | split

theorem processPacket_no_empty (isr : Nat → Bool) (st : FwState) (data : List Nat) (len now : Nat)
    (hlen : 1 ≤ len) :
    Event.log (LogEvent.error "EMPTY_PACKET") ∉ (processPacket isr st data len now).2 := by
  have hl : ¬ len < 1 := by omega
  simp only [processPacket]
  rw [if_neg hl]
  split
  · have := exec_no_empty isr st
      { cmd := data.getD 0 0, params := (data.drop 1).take (len - 1), timestamp := now } now
    simp [sendAck, List.mem_append]
    simpa using this
  · split
    · simp [sendAck]
    · simp [sendAck]

theorem stepByte_inv (isr : Nat → Bool) (st : FwState) (b now : Nat) (hinv : ParserInv st) :
    ParserInv (stepByte isr st b now).1 ∧
    Event.log (LogEvent.error "EMPTY_PACKET") ∉ (stepByte isr st b now).2 := by
  obtain ⟨hbuf, hs2⟩ := hinv
  by_cases h0 : st.rx_state = 0
  · by_cases hs : b % 256 = SYNC_BYTE <;>
      simp [stepByte, h0, hs, ParserInv, hbuf]
  · by_cases h1 : st.rx_state = 1
    · by_cases hbad : b % 256 = 0 ∨ b % 256 > MAX_PACKET_SIZE - 1
      · simp [stepByte, h0, h1, hbad, ParserInv, hbuf, sendAck]
      · have hb : 1 ≤ b % 256 ∧ b % 256 ≤ MAX_PACKET_SIZE - 1 := by
          unfold MAX_PACKET_SIZE at *
          omega
        simp [stepByte, h0, h1, hbad, ParserInv, hbuf, hb.1, hb.2]
    · by_cases h2 : st.rx_state = 2
      · obtain ⟨hl1, hl31, hidx⟩ := hs2 h2
        by_cases hdone : st.rx_idx + 1 = st.rx_len + 1
        · by_cases hcrc : (st.rx_buffer.set st.rx_idx (b % 256)).getD st.rx_len 0 =
              crc8 ((st.rx_buffer.set st.rx_idx (b % 256)).take st.rx_len)
          · have heq : stepByte isr st b now =
                ({ (processPacket isr
                      { st with
                          rx_buffer := st.rx_buffer.set st.rx_idx (b % 256),
                          rx_idx := st.rx_idx + 1 }
                      (st.rx_buffer.set st.rx_idx (b % 256)) st.rx_len now).1 with
                    rx_state := 0, rx_idx := 0 },
                 (processPacket isr
                    { st with
                        rx_buffer := st.rx_buffer.set st.rx_idx (b % 256),
                        rx_idx := st.rx_idx + 1 }
                    (st.rx_buffer.set st.rx_idx (b % 256)) st.rx_len now).2) := by
              simp only [stepByte]
              rw [if_neg h0, if_neg h1, if_pos h2, if_pos hdone, if_pos hcrc]
            rw [heq]
            refine ⟨⟨?_, by intro hz; simp at hz⟩, ?_⟩
            · show (processPacket isr
                  { st with
                      rx_buffer := st.rx_buffer.set st.rx_idx (b % 256),
                      rx_idx := st.rx_idx + 1 }
                  (st.rx_buffer.set st.rx_idx (b % 256)) st.rx_len now).1.rx_buffer.length =
                MAX_PACKET_SIZE
              rw [processPacket_rx_buffer]
              simp [hbuf]
            · exact processPacket_no_empty isr _ _ _ now hl1
          · simp only [stepByte]
            rw [if_neg h0, if_neg h1, if_pos h2, if_pos hdone, if_neg hcrc]
            constructor
            · simp [ParserInv, hbuf]
            · simp [sendAck]
        · have hlt : st.rx_idx + 1 ≤ st.rx_len := by omega
          simp [stepByte, h0, h1, h2, hdone, ParserInv, hbuf, hl1, hl31, hlt]
      · simp [stepByte, h0, h1, h2, ParserInv, hbuf, hs2]

theorem exec_rx_state (isr : Nat → Bool) (st : FwState) (p : CommandPacket) (now : Nat) :
    (executeCommand isr st p now).1.rx_state = st.rx_state := by
  simp only [executeCommand,
    apply_ite (fun r : FwState × List Event => r.1.rx_state), ite_self]

theorem exec_rx_len (isr : Nat → Bool) (st : FwState) (p : CommandPacket) (now : Nat) :
    (executeCommand isr st p now).1.rx_len = st.rx_len := by
  simp only [executeCommand,
    apply_ite (fun r : FwState × List Event => r.1.rx_len), ite_self]

theorem exec_rx_idx (isr : Nat → Bool) (st : FwState) (p : CommandPacket) (now : Nat) :
    (executeCommand isr st p now).1.rx_idx = st.rx_idx := by
  simp only [executeCommand,
    apply_ite (fun r : FwState × List Event => r.1.rx_idx), ite_self]

theorem exec_parserInv (isr : Nat → Bool) (st : FwState) (p : CommandPacket) (now : Nat)
    (h : ParserInv st) : ParserInv (executeCommand isr st p now).1 := by
  obtain ⟨hbuf, hs2⟩ := h
  constructor
  · rw [exec_rx_buffer]; exact hbuf
  · intro hz
    rw [exec_rx_state] at hz
    rw [exec_rx_len, exec_rx_idx]
    exact hs2 hz

theorem service_inv (st : FwState) (hinv : ParserInv st) :
    ParserInv (serviceInterrupt st).1 ∧
    Event.log (LogEvent.error "EMPTY_PACKET") ∉ (serviceInterrupt st).2 := by
  obtain ⟨hbuf, hs2⟩ := hinv
  by_cases h : st.g_interrupt_flag <;>
    by_cases hact : st.timedAction.active <;>
      (simp [serviceInterrupt, h, hact, ParserInv, hbuf, hs2, sendAck]) <;>
        exact hs2

theorem poll_inv (st : FwState) (now : Nat) (hinv : ParserInv st) :
    ParserInv (pollTimedAction st now).1 ∧
    Event.log (LogEvent.error "EMPTY_PACKET") ∉ (pollTimedAction st now).2 := by
  obtain ⟨hbuf, hs2⟩ := hinv
  unfold pollTimedAction
  split_ifs <;> (simp [ParserInv, hbuf, hs2]) <;> exact hs2

theorem executor_inv (isr : Nat → Bool) (st : FwState) (now : Nat) (hinv : ParserInv st) :
    ParserInv (executorStep isr st now).1 ∧
    Event.log (LogEvent.error "EMPTY_PACKET") ∉ (executorStep isr st now).2 := by
  unfold executorStep
  split_ifs with h
  · cases hp : st.cmdQueue.pop with
    | none => exact ⟨hinv, by simp⟩
    | some pr =>
        constructor
        · exact exec_parserInv _ _ _ _ hinv
        · exact exec_no_empty _ _ _ _
  · exact ⟨hinv, by simp⟩

theorem stats_inv (st : FwState) (now : Nat) (hinv : ParserInv st) :
    ParserInv (statsStep st now).1 ∧
    Event.log (LogEvent.error "EMPTY_PACKET") ∉ (statsStep st now).2 := by
  obtain ⟨hbuf, hs2⟩ := hinv
  unfold statsStep
  split_ifs <;> (simp [ParserInv, hbuf, hs2]) <;> exact hs2

theorem parseBytes_inv (isr : Nat → Bool) (bytes : List Nat) :
    ∀ (st : FwState) (now : Nat), ParserInv st →
      ParserInv (parseBytes isr st bytes now).1 ∧
      Event.log (LogEvent.error "EMPTY_PACKET") ∉ (parseBytes isr st bytes now).2 := by
  induction bytes with
  | nil => intro st now hinv; exact ⟨hinv, by simp [parseBytes]⟩
  | cons b rest ih =>
    intro st now hinv
    have h1 := stepByte_inv isr st b now hinv
    have h2 := ih (stepByte isr st b now).1 now h1.1
    constructor
    · exact h2.1
    · simp only [parseBytes, List.mem_append, not_or]
      exact ⟨h1.2, h2.2⟩

theorem sections123_inv (st : FwState) (inp : LoopInput) (hinv : ParserInv st) :
    ParserInv (sections123 st inp).1 ∧
    Event.log (LogEvent.error "EMPTY_PACKET") ∉ (sections123 st inp).2 := by
  have h0 : ParserInv (if inp.interrupt then { st with g_interrupt_flag := true } else st) := by
    split_ifs
    · exact hinv
    · exact hinv
  have h1 := service_inv _ h0
  have h2 := poll_inv _ inp.now h1.1
  have h3 := parseBytes_inv inp.intrDuring inp.bytes _ inp.now h2.1
  constructor
  · exact h3.1
  · simp only [sections123, List.mem_append, not_or]
    exact ⟨⟨h1.2, h2.2⟩, h3.2⟩

theorem loopIteration_inv (st : FwState) (inp : LoopInput) (hinv : ParserInv st) :
    ParserInv (loopIteration st inp).1 ∧
    Event.log (LogEvent.error "EMPTY_PACKET") ∉ (loopIteration st inp).2 := by
  have h3 := sections123_inv st inp hinv
  have h4 := executor_inv inp.intrDuring _ inp.now h3.1
  have h5 := stats_inv _ inp.now h4.1
  constructor
  · exact h5.1
  · simp only [loopIteration, List.mem_append, not_or]
    exact ⟨⟨h3.2, h4.2⟩, h5.2⟩

theorem run_inv (inputs : List LoopInput) :
    ∀ (st : FwState), ParserInv st →
      ParserInv (run st inputs).1 ∧
      Event.log (LogEvent.error "EMPTY_PACKET") ∉ (run st inputs).2 := by
  induction inputs with
  | nil => intro st hinv; exact ⟨hinv, by simp [run]⟩
  | cons inp rest ih =>
    intro st hinv
    have h1 := loopIteration_inv st inp hinv
    have h2 := ih (loopIteration st inp).1 h1.1
    constructor
    · exact h2.1
    · simp only [run, List.mem_append, not_or]
      exact ⟨h1.2, h2.2⟩

-- ========== Claim C10: EMPTY_PACKET is unreachable ==========

/-- Claim C10: starting from the reset state, every run of the firmware
keeps the parser invariant — in S_PAYLOAD the recorded length is in
`1..=31` and the write index never exceeds it, so the payload plus CRC byte
always fit inside the 32-byte `rx_buffer` — and never emits the
`EMPTY_PACKET` error of `processPacket`'s `len < 1` branch: the S_LEN state
rejects `L = 0` and `L > 31` before S_PAYLOAD is entered, so `processPacket`
is only ever invoked with a length in `1..=31` and its empty-payload branch
is dead code. -/
theorem empty_packet_unreachable_claim (inputs : List LoopInput) :
    ParserInv (run initState inputs).1 ∧
    Event.log (LogEvent.error "EMPTY_PACKET") ∉ (run initState inputs).2 :=
  run_inv inputs initState (by decide)

/-- Witness for C10 on a short concrete run (one iteration parsing a full
valid frame). -/
theorem empty_packet_unreachable_claim_witness :
    ParserInv (run initState [inpClick]).1 ∧
    Event.log (LogEvent.error "EMPTY_PACKET") ∉ (run initState [inpClick]).2 :=
  empty_packet_unreachable_claim [inpClick]

-- ========== Log-noninterference lemmas (claim C9) ==========

theorem sameExceptLog_eq (s1 s2 : FwState) (h : sameExceptLog s1 s2) :
    s1 = { s2 with g_log_enabled := s1.g_log_enabled } := by
  obtain ⟨h1, h2, h3, h4, h5, h6, h7, h8⟩ := h
  cases s1
  cases s2
  simp_all

theorem sel_override {a c : FwState} (h : sameExceptLog a c) :
    sameExceptLog { a with rx_state := 0, rx_idx := 0 } { c with rx_state := 0, rx_idx := 0 } := by
  obtain ⟨h1, h2, h3, h4, h5, h6, h7, h8⟩ := h
  exact ⟨h1, h2, h3, rfl, h5, rfl, h7, h8⟩

theorem exec_setLog (isr : Nat → Bool) (s : FwState) (b : Bool) (p : CommandPacket) (now : Nat) :
    sameExceptLog (executeCommand isr { s with g_log_enabled := b } p now).1
      (executeCommand isr s p now).1 ∧
    (executeCommand isr { s with g_log_enabled := b } p now).2 =
      (executeCommand isr s p now).2 := by
  constructor
  · refine ⟨?_, ?_, ?_, ?_, ?_, ?_, ?_, ?_⟩ <;>
      simp only [executeCommand,
        apply_ite (fun r : FwState × List Event => r.1.g_interrupt_flag),
        apply_ite (fun r : FwState × List Event => r.1.cmdQueue),
        apply_ite (fun r : FwState × List Event => r.1.timedAction),
        apply_ite (fun r : FwState × List Event => r.1.rx_state),
        apply_ite (fun r : FwState × List Event => r.1.rx_len),
        apply_ite (fun r : FwState × List Event => r.1.rx_idx),
        apply_ite (fun r : FwState × List Event => r.1.rx_buffer),
        apply_ite (fun r : FwState × List Event => r.1.last_stats_time)]
  · simp only [executeCommand, apply_ite (fun r : FwState × List Event => r.2)]

theorem pp_setLog (isr : Nat → Bool) (s : FwState) (b : Bool) (data : List Nat) (len now : Nat) :
    sameExceptLog (processPacket isr { s with g_log_enabled := b } data len now).1
      (processPacket isr s data len now).1 ∧
    (processPacket isr { s with g_log_enabled := b } data len now).2 =
      (processPacket isr s data len now).2 := by
  by_cases hl : len < 1
  · simp [processPacket, hl, sameExceptLog]
  · by_cases hctl : data.getD 0 0 = CMD_PAUSE_LOG ∨ data.getD 0 0 = CMD_RESUME_LOG ∨
        data.getD 0 0 = CMD_CLEAR_QUEUE
    · rw [processPacket_ctl isr { s with g_log_enabled := b } data len now hl hctl,
        processPacket_ctl isr s data len now hl hctl]
      have he := exec_setLog isr s b
        { cmd := data.getD 0 0, params := (data.drop 1).take (len - 1), timestamp := now } now
      exact ⟨he.1, by rw [he.2]⟩
    · simp only [processPacket]
      rw [if_neg hl, if_neg hl, if_neg hctl, if_neg hctl]
      cases hp : s.cmdQueue.push
          { cmd := data.getD 0 0, params := (data.drop 1).take (len - 1), timestamp := now } with
      | some q2 => simp [hp, sameExceptLog]
      | none => simp [hp, sameExceptLog]

theorem pp_sel (isr : Nat → Bool) (s1 s2 : FwState) (data : List Nat) (len now : Nat)
    (h : sameExceptLog s1 s2) :
    sameExceptLog (processPacket isr s1 data len now).1 (processPacket isr s2 data len now).1 ∧
    (processPacket isr s1 data len now).2 = (processPacket isr s2 data len now).2 := by
  rw [sameExceptLog_eq s1 s2 h]
  exact pp_setLog isr s2 s1.g_log_enabled data len now

theorem stepByte_setLog (isr : Nat → Bool) (s : FwState) (b : Bool) (bb now : Nat) :
    sameExceptLog (stepByte isr { s with g_log_enabled := b } bb now).1
      (stepByte isr s bb now).1 ∧
    (stepByte isr { s with g_log_enabled := b } bb now).2 = (stepByte isr s bb now).2 := by
  by_cases h0 : s.rx_state = 0
  · by_cases hs : bb % 256 = SYNC_BYTE <;> simp [stepByte, h0, hs, sameExceptLog]
  · by_cases h1 : s.rx_state = 1
    · by_cases hbad : bb % 256 = 0 ∨ bb % 256 > MAX_PACKET_SIZE - 1 <;>
        simp [stepByte, h0, h1, hbad, sendAck, sameExceptLog]
    · by_cases h2 : s.rx_state = 2
      · by_cases hdone : s.rx_idx + 1 = s.rx_len + 1
        · by_cases hcrc : (s.rx_buffer.set s.rx_idx (bb % 256)).getD s.rx_len 0 =
              crc8 ((s.rx_buffer.set s.rx_idx (bb % 256)).take s.rx_len)
          · have hpp := pp_sel isr
              { s with
                  g_log_enabled := b,
                  rx_buffer := s.rx_buffer.set s.rx_idx (bb % 256), rx_idx := s.rx_idx + 1 }
              { s with rx_buffer := s.rx_buffer.set s.rx_idx (bb % 256), rx_idx := s.rx_idx + 1 }
              (s.rx_buffer.set s.rx_idx (bb % 256)) s.rx_len now
              ⟨rfl, rfl, rfl, rfl, rfl, rfl, rfl, rfl⟩
            simp only [stepByte]
            rw [if_neg h0, if_neg h1, if_pos h2, if_pos hdone, if_pos hcrc,
              if_neg h0, if_neg h1, if_pos h2, if_pos hdone, if_pos hcrc]
            exact ⟨sel_override hpp.1, hpp.2⟩
          · simp only [stepByte]
            rw [if_neg h0, if_neg h1, if_pos h2, if_pos hdone, if_neg hcrc,
              if_neg h0, if_neg h1, if_pos h2, if_pos hdone, if_neg hcrc]
            exact ⟨⟨rfl, rfl, rfl, rfl, rfl, rfl, rfl, rfl⟩, rfl⟩
        · simp only [stepByte]
          rw [if_neg h0, if_neg h1, if_pos h2, if_neg hdone,
            if_neg h0, if_neg h1, if_pos h2, if_neg hdone]
          exact ⟨⟨rfl, rfl, rfl, rfl, rfl, rfl, rfl, rfl⟩, rfl⟩
      · simp only [stepByte]
        rw [if_neg h0, if_neg h1, if_neg h2,
          if_neg h0, if_neg h1, if_neg h2]
        exact ⟨⟨rfl, rfl, rfl, rfl, rfl, rfl, rfl, rfl⟩, rfl⟩

theorem stepByte_sel (isr : Nat → Bool) (s1 s2 : FwState) (bb now : Nat)
    (h : sameExceptLog s1 s2) :
    sameExceptLog (stepByte isr s1 bb now).1 (stepByte isr s2 bb now).1 ∧
    (stepByte isr s1 bb now).2 = (stepByte isr s2 bb now).2 := by
  rw [sameExceptLog_eq s1 s2 h]
  exact stepByte_setLog isr s2 s1.g_log_enabled bb now

theorem exec_sel (isr : Nat → Bool) (s1 s2 : FwState) (p : CommandPacket) (now : Nat)
    (h : sameExceptLog s1 s2) :
    sameExceptLog (executeCommand isr s1 p now).1 (executeCommand isr s2 p now).1 ∧
    (executeCommand isr s1 p now).2 = (executeCommand isr s2 p now).2 := by
  rw [sameExceptLog_eq s1 s2 h]
  exact exec_setLog isr s2 s1.g_log_enabled p now

theorem service_setLog (s : FwState) (b : Bool) :
    sameExceptLog (serviceInterrupt { s with g_log_enabled := b }).1 (serviceInterrupt s).1 ∧
    (serviceInterrupt { s with g_log_enabled := b }).2 = (serviceInterrupt s).2 := by
  by_cases h : s.g_interrupt_flag <;> by_cases hact : s.timedAction.active <;>
    simp [serviceInterrupt, h, hact, sameExceptLog, sendAck]

theorem service_sel (s1 s2 : FwState) (h : sameExceptLog s1 s2) :
    sameExceptLog (serviceInterrupt s1).1 (serviceInterrupt s2).1 ∧
    (serviceInterrupt s1).2 = (serviceInterrupt s2).2 := by
  rw [sameExceptLog_eq s1 s2 h]
  exact service_setLog s2 s1.g_log_enabled

theorem poll_setLog (s : FwState) (b : Bool) (now : Nat) :
    sameExceptLog (pollTimedAction { s with g_log_enabled := b } now).1
      (pollTimedAction s now).1 ∧
    (pollTimedAction { s with g_log_enabled := b } now).2 = (pollTimedAction s now).2 := by
  by_cases hact : s.timedAction.active
  · by_cases hd : now - s.timedAction.start_time ≥ s.timedAction.duration_ms <;>
      simp [pollTimedAction, hact, hd, sameExceptLog]
  · simp [pollTimedAction, hact, sameExceptLog]

theorem poll_sel (s1 s2 : FwState) (now : Nat) (h : sameExceptLog s1 s2) :
    sameExceptLog (pollTimedAction s1 now).1 (pollTimedAction s2 now).1 ∧
    (pollTimedAction s1 now).2 = (pollTimedAction s2 now).2 := by
  rw [sameExceptLog_eq s1 s2 h]
  exact poll_setLog s2 s1.g_log_enabled now

theorem stats_setLog (s : FwState) (b : Bool) (now : Nat) :
    sameExceptLog (statsStep { s with g_log_enabled := b } now).1 (statsStep s now).1 ∧
    (statsStep { s with g_log_enabled := b } now).2 = (statsStep s now).2 := by
  by_cases ht : now - s.last_stats_time > 30000 <;> simp [statsStep, ht, sameExceptLog]

theorem stats_sel (s1 s2 : FwState) (now : Nat) (h : sameExceptLog s1 s2) :
    sameExceptLog (statsStep s1 now).1 (statsStep s2 now).1 ∧
    (statsStep s1 now).2 = (statsStep s2 now).2 := by
  rw [sameExceptLog_eq s1 s2 h]
  exact stats_setLog s2 s1.g_log_enabled now

theorem executorStep_setLog (isr : Nat → Bool) (s : FwState) (b : Bool) (now : Nat) :
    sameExceptLog (executorStep isr { s with g_log_enabled := b } now).1
      (executorStep isr s now).1 ∧
    (executorStep isr { s with g_log_enabled := b } now).2 = (executorStep isr s now).2 := by
  by_cases h : s.timedAction.active = false ∧ s.cmdQueue.isEmpty = false
  · cases hp : s.cmdQueue.pop with
    | none => simp [executorStep, h, hp, sameExceptLog]
    | some pr =>
        have he := exec_sel isr { s with g_log_enabled := b, cmdQueue := pr.1 }
          { s with cmdQueue := pr.1 } pr.2 now ⟨rfl, rfl, rfl, rfl, rfl, rfl, rfl, rfl⟩
        simp only [executorStep]
        rw [if_pos h, if_pos h, hp]
        exact ⟨he.1, he.2⟩
  · simp [executorStep, h, sameExceptLog]

theorem executorStep_sel (isr : Nat → Bool) (s1 s2 : FwState) (now : Nat)
    (h : sameExceptLog s1 s2) :
    sameExceptLog (executorStep isr s1 now).1 (executorStep isr s2 now).1 ∧
    (executorStep isr s1 now).2 = (executorStep isr s2 now).2 := by
  rw [sameExceptLog_eq s1 s2 h]
  exact executorStep_setLog isr s2 s1.g_log_enabled now

theorem parseBytes_sel (isr : Nat → Bool) (bytes : List Nat) :
    ∀ (s1 s2 : FwState) (now : Nat), sameExceptLog s1 s2 →
      sameExceptLog (parseBytes isr s1 bytes now).1 (parseBytes isr s2 bytes now).1 ∧
      (parseBytes isr s1 bytes now).2 = (parseBytes isr s2 bytes now).2 := by
  induction bytes with
  | nil => intro s1 s2 now h; exact ⟨h, rfl⟩
  | cons bb rest ih =>
    intro s1 s2 now h
    have h1 := stepByte_sel isr s1 s2 bb now h
    have h2 := ih (stepByte isr s1 bb now).1 (stepByte isr s2 bb now).1 now h1.1
    refine ⟨h2.1, ?_⟩
    show (parseBytes isr s1 (bb :: rest) now).2 = (parseBytes isr s2 (bb :: rest) now).2
    simp only [parseBytes]
    rw [h1.2, h2.2]

theorem sections123_sel (s1 s2 : FwState) (inp : LoopInput) (h : sameExceptLog s1 s2) :
    sameExceptLog (sections123 s1 inp).1 (sections123 s2 inp).1 ∧
    (sections123 s1 inp).2 = (sections123 s2 inp).2 := by
  have h0 : sameExceptLog (if inp.interrupt then { s1 with g_interrupt_flag := true } else s1)
      (if inp.interrupt then { s2 with g_interrupt_flag := true } else s2) := by
    obtain ⟨h1, h2, h3, h4, h5, h6, h7, h8⟩ := h
    split_ifs
    · exact ⟨rfl, h2, h3, h4, h5, h6, h7, h8⟩
    · exact ⟨h1, h2, h3, h4, h5, h6, h7, h8⟩
  have hs := service_sel _ _ h0
  have hpl := poll_sel _ _ inp.now hs.1
  have hpb := parseBytes_sel inp.intrDuring inp.bytes _ _ inp.now hpl.1
  refine ⟨hpb.1, ?_⟩
  show (sections123 s1 inp).2 = (sections123 s2 inp).2
  simp only [sections123]
  rw [hs.2, hpl.2, hpb.2]

theorem loopIteration_sel (s1 s2 : FwState) (inp : LoopInput) (h : sameExceptLog s1 s2) :
    sameExceptLog (loopIteration s1 inp).1 (loopIteration s2 inp).1 ∧
    (loopIteration s1 inp).2 = (loopIteration s2 inp).2 := by
  have h3 := sections123_sel s1 s2 inp h
  have h4 := executorStep_sel inp.intrDuring _ _ inp.now h3.1
  have h5 := stats_sel _ _ inp.now h4.1
  refine ⟨h5.1, ?_⟩
  show (loopIteration s1 inp).2 = (loopIteration s2 inp).2
  simp only [loopIteration]
  rw [h3.2, h4.2, h5.2]

theorem run_sel (inputs : List LoopInput) :
    ∀ (s1 s2 : FwState), sameExceptLog s1 s2 →
      sameExceptLog (run s1 inputs).1 (run s2 inputs).1 ∧
      (run s1 inputs).2 = (run s2 inputs).2 := by
  induction inputs with
  | nil => intro s1 s2 h; exact ⟨h, rfl⟩
  | cons inp rest ih =>
    intro s1 s2 h
    have h1 := loopIteration_sel s1 s2 inp h
    have h2 := ih (loopIteration s1 inp).1 (loopIteration s2 inp).1 h1.1
    refine ⟨h2.1, ?_⟩
    show (run s1 (inp :: rest)).2 = (run s2 (inp :: rest)).2
    simp only [run]
    rw [h1.2, h2.2]

-- ========== Claim C9: logging state does not affect protocol behavior ==========

/-- Claim C9: two runs fed the same inbound bytes, the same interrupt
events and the same clock, but starting from states differing only in
`g_log_enabled` (as toggled by PAUSE_LOG/RESUME_LOG), emit the same
sequence of ACK bytes on the primary serial channel and the same sequence
of HID calls — disabling logging does not affect protocol behavior.  (In
this model the two runs in fact produce identical event traces, since
`g_log_enabled` is read by nothing but the `Logger`'s internal text
gating.) -/
theorem log_noninterference_claim (st : FwState) (b : Bool) (inputs : List LoopInput) :
    acksOf (run { st with g_log_enabled := b } inputs).2 = acksOf (run st inputs).2 ∧
    hidOf (run { st with g_log_enabled := b } inputs).2 = hidOf (run st inputs).2 := by
  have h := run_sel inputs { st with g_log_enabled := b } st
    ⟨rfl, rfl, rfl, rfl, rfl, rfl, rfl, rfl⟩
  rw [h.2]
  exact ⟨rfl, rfl⟩
